import Mathlib

/-!
# Snapshot-test harness: shallow embedding

A shallow embedding of the snapshot-testing harness in `tests/test_snapshots.py`
and the model entry point in `src/main.py`.

Modelling conventions:
* The file system is explicit data: a directory listing is a `List DirEntry`
  (name plus directory flag), a folder of regular files is a
  `List (String × FileContent)` mapping a (relative) file name to its parsed
  content.
* Python numbers are `ℚ` (the inputs of interest are ints and decimal
  literals, which embed exactly).
* Parsed JSON values are the inductive `Json`.  `json.load` produces Python
  dicts, whose `==` ignores key insertion order; we work with a canonical
  association-list representation, so structural equality coincides with
  Python's dict equality.
* Raised exceptions are `Except` errors; the error kind (`ValueError`,
  `KeyError`, assertion failure) is tracked by the `CmpError` inductive so
  that distinct error kinds are distinguishable.
-/

namespace Snapshots

/-- Parsed JSON values (Python objects produced by `json.load`). -/
inductive Json where
  | null
  | bool (b : Bool)
  | num (q : ℚ)
  | str (s : String)
  | arr (xs : List Json)
  | obj (kvs : List (String × Json))

/-- Python dict assignment `d[k] = v`: overwrite in place if the key exists
(keeping its position), otherwise append the new binding at the end. -/
def dictSet : List (String × Json) → String → Json → List (String × Json)
  | [], k, v => [(k, v)]
  | (k', v') :: rest, k, v =>
      if k' = k then (k, v) :: rest else (k', v') :: dictSet rest k v

/-- Python dict lookup `d[k]` (keys are unique, so first match). -/
def dictGet : List (String × Json) → String → Option Json
  | [], _ => none
  | (k', v') :: rest, k => if k' = k then some v' else dictGet rest k

/-- `pre` is a leading segment of `s` (char-list form of `str.startswith`). -/
def beginsWith : List Char → List Char → Bool
  | [], _ => true
  | _ :: _, [] => false
  | c :: cs, d :: ds => c == d && beginsWith cs ds

/-- Python `s.startswith(pre)`. -/
def strBeginsWith (s pre : String) : Bool :=
  beginsWith pre.data s.data

/-- Python slicing `s[n:]`. -/
def strDrop (s : String) (n : Nat) : String :=
  ⟨s.data.drop n⟩

/-- An entry of a directory listing: a name plus whether it is a directory. -/
structure DirEntry where
  name : String
  isDir : Bool
deriving DecidableEq

/--
`find_cases` (tests/test_snapshots.py): the immediate entries of the
snapshots root that are directories and whose name starts with `"Case"`,
in listing order.  (A missing snapshots root is the empty listing.)
-/
def find_cases (entries : List DirEntry) : List String :=
  ((entries.filter (fun e => e.isDir && strBeginsWith e.name "Case")).map
    (fun e => e.name))

/-- Digits of a decimal literal to a number; `none` if empty or non-digit. -/
def digitsToNat? (cs : List Char) : Option Nat :=
  match cs with
  | [] => none
  | _ =>
    cs.foldl
      (fun acc c =>
        match acc with
        | none => none
        | some n => if c.isDigit then some (n * 10 + (c.toNat - 48)) else none)
      (some 0)

/-- Python `int(s)` on a plain decimal literal with optional leading minus
sign; `none` models the raised `ValueError` on malformed input. -/
def pyInt? (s : String) : Option Int :=
  match s.data with
  | '-' :: rest => (digitsToNat? rest).map (fun n => -(n : Int))
  | cs => (digitsToNat? cs).map (fun n => (n : Int))

/-- Python `max(xs)` on a list: `none` models the `ValueError` raised on an
empty sequence. -/
def pymax : List Int → Option Int
  | [] => none
  | x :: xs => some (xs.foldl max x)

/-- Python `range(a, b)` as a list of integers. -/
def rangeInts (a b : Int) : List Int :=
  (List.range (b - a).toNat).map (fun k : Nat => a + (k : Int))

/--
The gap-scanning loop of `create_new_case_folder`:

    for i in range(1, max(case_numbers)):
        if i not in case_numbers:
            new_case_number = i

`none` when the loop never fires; note the loop has no `break`, so a later
unused `i` overwrites an earlier one. -/
def scanGaps (case_numbers : List Int) (m : Int) : Option Int :=
  (rangeInts 1 m).foldl
    (fun acc i => if i ∈ case_numbers then acc else some i) none

/-- The case-number computation of `create_new_case_folder`: the scan result
if the loop found an unused number, otherwise `max + 1`; the error is the
`ValueError` of `max()` on an empty sequence. -/
def new_case_number (case_numbers : List Int) : Except String Int :=
  match pymax case_numbers with
  | none => Except.error "max() arg is an empty sequence"
  | some m => Except.ok ((scanGaps case_numbers m).getD (m + 1))

/-- Python `f"{n:02d}"`: pad to width two with a leading zero. -/
def pad2 (n : Int) : String :=
  let s := toString n
  if s.length < 2 then "0" ++ s else s

/-- `mkdir(parents=True, exist_ok=True)` on a flat listing: add the directory
entry if it is not already present. -/
def mkdirEntry (fs : List DirEntry) (name : String) : List DirEntry :=
  if fs.any (fun e => e.name == name && e.isDir) then fs
  else fs ++ [⟨name, true⟩]

/--
`create_new_case_folder` (tests/test_snapshots.py) on the snapshots-root
listing: parse the numeric tail of every existing case name, compute the new
case number, and create `Case{nn:02d}`.  The returned pair is the listing
after the call together with the result (the new case name, or the raised
error); on error the listing is unchanged, since the exception is raised
before `mkdir`. -/
def create_new_case_folder (fs : List DirEntry) :
    List DirEntry × Except String String :=
  let cases := find_cases fs
  match cases.mapM (fun c => pyInt? (strDrop c 4)) with
  | none => (fs, Except.error "invalid literal for int() with base 10")
  | some case_numbers =>
    match new_case_number case_numbers with
    | Except.error e => (fs, Except.error e)
    | Except.ok n =>
        let new_case := "Case" ++ pad2 n
        (mkdirEntry fs new_case, Except.ok new_case)

/-! ## File contents and the per-format comparators -/

/-- The two tolerance constants of tests/test_snapshots.py:
`ABSOLUTE_TOLERANCE = 1e-8`. -/
def ABSOLUTE_TOLERANCE : ℚ := 1 / 100000000

/-- `RELATIVE_TOLERANCE = 0`. -/
def RELATIVE_TOLERANCE : ℚ := 0

/-- A cell of a parsed csv table: numeric or textual. -/
inductive Cell where
  | num (q : ℚ)
  | str (s : String)

/-- A parsed csv table (`pandas.read_csv` result): the column names in order
and the rows of cells in order. -/
structure Frame where
  columns : List String
  rows : List (List Cell)

/-- Distinguishable error kinds raised during a comparison:
`assertionError` for a csv/json/npz value mismatch, `keyError` for an npz
key-set mismatch, `valueError` for an unsupported extension, `readError`
for a file that cannot be opened/parsed. -/
inductive CmpError where
  | assertionError (msg : String)
  | keyError (msg : String)
  | valueError (msg : String)
  | readError

/-- Closeness of two cells under `assert_frame_equal(..., atol, rtol)`:
numeric cells within `|a - b| ≤ atol + rtol * |b|`, other cells exactly
equal (and of the same kind). -/
def cellClose (atol rtol : ℚ) : Cell → Cell → Bool
  | Cell.num a, Cell.num b => decide (|a - b| ≤ atol + rtol * |b|)
  | Cell.str a, Cell.str b => a == b
  | _, _ => false

/-- One row against another, cell by cell; `false` on a length mismatch. -/
def rowClose (atol rtol : ℚ) : List Cell → List Cell → Bool
  | [], [] => true
  | a :: as', b :: bs => cellClose atol rtol a b && rowClose atol rtol as' bs
  | _, _ => false

/-- All rows, row by row; `false` on a row-count mismatch. -/
def rowsClose (atol rtol : ℚ) : List (List Cell) → List (List Cell) → Bool
  | [], [] => true
  | r :: rs, s :: ss => rowClose atol rtol r s && rowsClose atol rtol rs ss
  | _, _ => false

/-- `pd.testing.assert_frame_equal(data, expected, atol, rtol)`: column
names and order must match exactly, shapes must match, numeric values are
compared within the tolerances; a mismatch raises an assertion error. -/
def assert_frame_equal (atol rtol : ℚ) (data expected : Frame) :
    Except CmpError Unit :=
  if data.columns = expected.columns then
    if rowsClose atol rtol data.rows expected.rows then Except.ok ()
    else Except.error (CmpError.assertionError "DataFrame values are different")
  else Except.error (CmpError.assertionError "DataFrame columns are different")

mutual

/-- Parsed JSON values compared with Python `==` (structural on the
canonical representation). -/
def jsonEqb : Json → Json → Bool
  | Json.null, Json.null => true
  | Json.bool a, Json.bool b => a == b
  | Json.num a, Json.num b => a == b
  | Json.str a, Json.str b => a == b
  | Json.arr xs, Json.arr ys => jsonListEqb xs ys
  | Json.obj a, Json.obj b => jsonObjEqb a b
  | _, _ => false

/-- Element lists compared in order (Python list `==`). -/
def jsonListEqb : List Json → List Json → Bool
  | [], [] => true
  | x :: xs, y :: ys => jsonEqb x y && jsonListEqb xs ys
  | _, _ => false

/-- Object bindings compared in canonical order. -/
def jsonObjEqb : List (String × Json) → List (String × Json) → Bool
  | [], [] => true
  | (k1, v1) :: xs, (k2, v2) :: ys => k1 == k2 && jsonEqb v1 v2 && jsonObjEqb xs ys
  | _, _ => false

end

/-- The content of a file on disk, already parsed by the reader the harness
would apply to it: a csv table, a JSON value, an html document (opaque —
never compared), an npz archive of named numeric arrays (flattened), or an
unparsed file of any other kind. -/
inductive FileContent where
  | csv (frame : Frame)
  | json (value : Json)
  | html
  | npz (members : List (String × List ℚ))
  | other

/-- Reading a file as csv (`pd.read_csv`): the file must exist and hold a
table. -/
def read_csv : Option FileContent → Except CmpError Frame
  | some (FileContent.csv fr) => Except.ok fr
  | _ => Except.error CmpError.readError

/-- Reading a file as JSON (`json.load`). -/
def read_json : Option FileContent → Except CmpError Json
  | some (FileContent.json v) => Except.ok v
  | _ => Except.error CmpError.readError

/-- Reading a file as an npz archive (`np.load`). -/
def read_npz : Option FileContent → Except CmpError (List (String × List ℚ))
  | some (FileContent.npz ms) => Except.ok ms
  | _ => Except.error CmpError.readError

/-- `assert_csv` (tests/test_snapshots.py): read both files and compare the
frames under the module tolerances. -/
def assert_csv (output expected : Option FileContent) : Except CmpError Unit := do
  let data ← read_csv output
  let expected_data ← read_csv expected
  assert_frame_equal ABSOLUTE_TOLERANCE RELATIVE_TOLERANCE data expected_data

/-- `assert_json` (tests/test_snapshots.py): read both files and `assert
data == expected_data`. -/
def assert_json (output expected : Option FileContent) : Except CmpError Unit := do
  let data ← read_json output
  let expected_data ← read_json expected
  if jsonEqb data expected_data then Except.ok ()
  else Except.error (CmpError.assertionError "json files are different")

/-- Python `set(a) == set(b)` on name lists: mutual containment. -/
def keySetEqb (a b : List String) : Bool :=
  a.all (fun k => b.contains k) && b.all (fun k => a.contains k)

/-- First member of an archive with the given name (`data[name]`). -/
def npzGet : List (String × List ℚ) → String → Option (List ℚ)
  | [], _ => none
  | (n, arr) :: rest, name => if n == name then some arr else npzGet rest name

/-- Element-wise closeness of two flattened arrays under
`|actual - desired| ≤ atol + rtol * |desired|`; `false` on a shape
mismatch. -/
def allcloseB (atol rtol : ℚ) : List ℚ → List ℚ → Bool
  | [], [] => true
  | a :: as', b :: bs =>
      decide (|a - b| ≤ atol + rtol * |b|) && allcloseB atol rtol as' bs
  | _, _ => false

/-- `np.testing.assert_allclose(actual, desired, atol, rtol)`. -/
def assert_allclose (atol rtol : ℚ) (actual desired : List ℚ) :
    Except CmpError Unit :=
  if allcloseB atol rtol actual desired then Except.ok ()
  else Except.error (CmpError.assertionError "Not equal to tolerance")

/-- The member loop of `assert_npz`: `for name in expected_data.files:
assert_allclose(data[name], expected_data[name], ...)`. -/
def assertNpzMembers (data : List (String × List ℚ)) :
    List (String × List ℚ) → Except CmpError Unit
  | [] => Except.ok ()
  | (name, arr) :: rest =>
      match npzGet data name with
      | none => Except.error CmpError.readError
      | some actual =>
          match assert_allclose ABSOLUTE_TOLERANCE RELATIVE_TOLERANCE actual arr with
          | Except.ok _ => assertNpzMembers data rest
          | Except.error e => Except.error e

/-- `assert_npz` (tests/test_snapshots.py): raise `KeyError` when the key
sets differ, before any element-wise comparison; otherwise compare every
member within the tolerances. -/
def assert_npz (output expected : Option FileContent) : Except CmpError Unit :=
  match read_npz output with
  | Except.error e => Except.error e
  | Except.ok data =>
    match read_npz expected with
    | Except.error e => Except.error e
    | Except.ok expected_data =>
      if keySetEqb (data.map Prod.fst) (expected_data.map Prod.fst) then
        assertNpzMembers data expected_data
      else
        Except.error (CmpError.keyError "The .npz archives have different keys.")

/-- Index of the last `'.'` of a name, if any. -/
def lastDotIdx (cs : List Char) : Option Nat :=
  (cs.foldl
    (fun (acc : Nat × Option Nat) c =>
      (acc.1 + 1, if c == '.' then some acc.1 else acc.2))
    (0, none)).2

/-- `pathlib.Path(name).suffix`: the trailing `".ext"` of the name, empty
when the name has no dot, starts with its only dot, or ends in a dot. -/
def suffix (name : String) : String :=
  match lastDotIdx name.data with
  | some i =>
      if 0 < i ∧ i < name.data.length - 1 then ⟨name.data.drop i⟩ else ""
  | none => ""

/-- `assert_file` (tests/test_snapshots.py): dispatch on the expected
file's extension — csv/json/npz are compared, html is a no-op pass, and
any other extension raises `ValueError`. -/
def assert_file (output : Option FileContent) (expectedName : String)
    (expected : FileContent) : Except CmpError Unit :=
  if suffix expectedName = ".csv" then assert_csv output (some expected)
  else if suffix expectedName = ".json" then assert_json output (some expected)
  else if suffix expectedName = ".html" then Except.ok ()
  else if suffix expectedName = ".npz" then assert_npz output (some expected)
  else
    Except.error
      (CmpError.valueError
        ("File extension '" ++ suffix expectedName ++ "' is not supported."))

/-! ## Folders, the comparison walk and the compare-mode case step -/

/-- A folder of regular files: relative path paired with parsed content.
`os.walk` order of the expected tree is the list order. -/
abbrev Folder := List (String × FileContent)

/-- First file of a folder at the given relative path, if any. -/
def findFile : Folder → String → Option FileContent
  | [], _ => none
  | (n, c) :: rest, p => if n = p then some c else findFile rest p

/-- `compare_outputs` (tests/test_snapshots.py): walk the expected-outputs
tree; for every file found there, look up the file at the same relative
path in the actual-outputs tree and `assert_file` the pair.  Files of the
actual tree without an expected counterpart are never visited. -/
def compare_outputs (expected actual : Folder) : Except CmpError Unit :=
  match expected with
  | [] => Except.ok ()
  | (p, c) :: rest => do
      assert_file (findFile actual p) p c
      compare_outputs rest actual

/-- An output item of the external library's `OutputSet`: an identifier, a
target extension and the content it serializes to. -/
structure OutputItem where
  filename : String
  extension : String
  content : FileContent

/-- The external library's `OutputSet`: the ordered items of one model run. -/
structure OutputSetM where
  output_items : List OutputItem

/-- `export_outputs` (tests/test_snapshots.py): destructively clear the
output folder (remove-then-recreate, so the result does not depend on any
prior content), then write every item whose extension is not `"html"`,
each to a file named after its identifier with its extension. -/
def export_outputs (output_set : OutputSetM) : Folder :=
  (output_set.output_items.filter (fun item => item.extension != "html")).map
    (fun item => (item.filename ++ "." ++ item.extension, item.content))

/-- The state of one case after its compare-mode iteration: whether a
`TempOutputs` folder is present on disk (and its content), and the
iteration's outcome. -/
structure CompareCaseResult where
  tempOutputs : Option Folder
  result : Except CmpError Unit

/-- The compare-mode body of `test_snapshots` for one case:

    export_outputs(outputs_dir=outputs_base_dir, output_set=output_set)
    compare_outputs(expected_outputs_base_dir, outputs_base_dir)
    shutil.rmtree(outputs_base_dir)

The export replaces any prior `TempOutputs` content; the `rmtree` runs only
after `compare_outputs` returns, so an exception from the comparison
propagates with the temporary folder still on disk. -/
def run_compare_case (expected : Folder) (output_set : OutputSetM)
    (_priorTemp : Option Folder) : CompareCaseResult :=
  let temp := export_outputs output_set
  match compare_outputs expected temp with
  | Except.ok () => { tempOutputs := none, result := Except.ok () }
  | Except.error e => { tempOutputs := some temp, result := Except.error e }

/-! ## Settings and the create-mode settings flow -/

/-- `load_settings` (tests/test_snapshots.py): the parsed content of
`Inputs/settings.json`, with `settings["create_output_files"] = False`
forced afterwards. -/
def load_settings (fileContents : List (String × Json)) : List (String × Json) :=
  dictSet fileContents "create_output_files" (Json.bool false)

/-- `export_settings` (tests/test_snapshots.py): delete the case's `Inputs`
folder when present, recreate it empty, and write the settings mapping to
`settings.json` inside it. -/
def export_settings (priorInputs : Option Folder)
    (settings : List (String × Json)) : Folder :=
  let emptied : Folder :=
    match priorInputs with
    | some _ => []  -- shutil.rmtree(inputs_dir) then mkdir: start empty
    | none => []    -- mkdir: start empty
  emptied ++ [("settings.json", FileContent.json (Json.obj settings))]

/-- The create-mode settings flow of `test_snapshots` for the new case:
load the settings from the project's working input location, then export
that same mapping into the case's `Inputs` folder. -/
def create_mode_inputs (projectSettingsFile : List (String × Json))
    (priorInputs : Option Folder) : Folder :=
  let settings := load_settings projectSettingsFile
  export_settings priorInputs settings

/-! ## The model entry point (src/main.py) -/

/-- `main` (src/main.py) on an already-loaded settings mapping: build a
one-row table with the single column `"total"` holding `a - b` and wrap it
as the only output item (`filename="df"`, `extension="csv"`).  `none`
models the exception raised when `"a"`, `"b"` or `"create_output_files"`
is missing or `a`/`b` is not numeric.  (When `create_output_files` is
truthy the items are additionally written to disk; that side effect does
not change the returned output set.) -/
def main (settings : List (String × Json)) : Option OutputSetM :=
  match dictGet settings "a", dictGet settings "b",
        dictGet settings "create_output_files" with
  | some (Json.num a), some (Json.num b), some _ =>
      some ⟨[⟨"df", "csv", FileContent.csv ⟨["total"], [[Cell.num (a - b)]]⟩⟩]⟩
  | _, _, _ => none

/-- Join strings with commas. -/
def joinComma : List String → String
  | [] => ""
  | [s] => s
  | s :: rest => s ++ "," ++ joinComma rest

/-- Rendering of a cell value in a csv file: integral numbers print with no
decimal part. -/
def renderCell : Cell → String
  | Cell.num q => if q.den = 1 then toString q.num else toString q
  | Cell.str s => s

/-- Rows of a csv file with their positional index in the first column. -/
def csvDataLines (i : Nat) : List (List Cell) → List String
  | [] => []
  | r :: rs => joinComma (toString i :: r.map renderCell) :: csvDataLines (i + 1) rs

/-- Modelled from the spec: the csv serialization of a tabular output item
lives in the external `detquantlib` library (`OutputItem.export_to_file`),
not in this repository; per the spec, the exported csv has a header line
with the column names and one line per row holding the row index and the
cell values, comma-separated. -/
def exportCsvLines (item : OutputItem) : List String :=
  match item.content with
  | FileContent.csv fr => joinComma fr.columns :: csvDataLines 0 fr.rows
  | _ => []

/-! ## Theorems -/

/-- C7: Case discovery (find_cases) returns exactly the immediate
subdirectories of the snapshots root whose name begins with the literal
prefix "Case", ignoring non-matching directories and all plain files; for
a snapshots directory containing directories Case01, Case03, NotACase and
a file Case02.txt, it returns exactly {Case01, Case03}. -/
theorem find_cases_spec :
    (∀ (entries : List DirEntry) (c : String),
        c ∈ find_cases entries ↔
          ∃ e ∈ entries,
            e.isDir = true ∧ strBeginsWith e.name "Case" = true ∧ c = e.name)
    ∧ find_cases
        [⟨"Case01", true⟩, ⟨"Case03", true⟩, ⟨"NotACase", true⟩,
          ⟨"Case02.txt", false⟩] = ["Case01", "Case03"] := by
  constructor
  · intro entries c
    simp only [find_cases, List.mem_map, List.mem_filter, Bool.and_eq_true]
    constructor
    · rintro ⟨e, ⟨he, hd, hp⟩, rfl⟩
      exact ⟨e, he, hd, hp, rfl⟩
    · rintro ⟨e, he, hd, hp, rfl⟩
      exact ⟨e, ⟨he, hd, hp⟩, rfl⟩
  · rfl

/-- C4: When zero case directories exist, new-case allocation
(create_new_case_folder) fails with a raised error (Python's `max()` on an
empty sequence) rather than silently defaulting to some case number, and
the snapshots listing is unchanged: no case directory is created. -/
theorem create_new_case_folder_empty_error (fs : List DirEntry)
    (h : find_cases fs = []) :
    create_new_case_folder fs =
      (fs, Except.error "max() arg is an empty sequence") := by
  simp [create_new_case_folder, h, new_case_number, pymax, List.mapM,
    List.mapM.loop]

/-- Witness for C4: a listing whose only entry is not a case directory. -/
theorem create_new_case_folder_empty_error_witness :
    create_new_case_folder [⟨"NotACase", true⟩] =
      ([⟨"NotACase", true⟩], Except.error "max() arg is an empty sequence") :=
  create_new_case_folder_empty_error [⟨"NotACase", true⟩] rfl

/-- C9: For every expected-output file dispatched by assert_file, a file
with extension html is treated as a no-op pass (no comparison performed,
whatever both contents are), and a file whose extension is none of csv,
json, html, npz fails immediately with an unsupported-format ValueError —
a hard stop, not a skip. -/
theorem assert_file_html_skip_unsupported_error :
    (∀ (output : Option FileContent) (name : String) (expected : FileContent),
        suffix name = ".html" → assert_file output name expected = Except.ok ())
    ∧ (∀ (output : Option FileContent) (name : String) (expected : FileContent),
        suffix name ≠ ".csv" → suffix name ≠ ".json" → suffix name ≠ ".html" →
        suffix name ≠ ".npz" →
        assert_file output name expected =
          Except.error
            (CmpError.valueError
              ("File extension '" ++ suffix name ++ "' is not supported."))) := by
  constructor
  · intro output name expected h
    simp [assert_file, h]
  · intro output name expected hcsv hjson hhtml hnpz
    simp only [assert_file, if_neg hcsv, if_neg hjson, if_neg hhtml, if_neg hnpz]

/-- Counterexample to C2 as stated: a case whose expected outputs hold a
file with the unsupported extension `.txt` while the model produced no
outputs; the comparison raises, and the compare-mode iteration ends with
the `TempOutputs` folder still present, not deleted. -/
theorem run_compare_case_error_leaves_temp :
    (run_compare_case [("x.txt", FileContent.other)] ⟨[]⟩ none).result ≠
        Except.ok ()
    ∧ (run_compare_case [("x.txt", FileContent.other)] ⟨[]⟩ none).tempOutputs ≠
        none := by
  have h : run_compare_case [("x.txt", FileContent.other)] ⟨[]⟩ none =
      ⟨some [],
        Except.error
          (CmpError.valueError "File extension '.txt' is not supported.")⟩ := rfl
  rw [h]
  simp

/-- C2 (amended): in compare mode the temporary output folder is deleted
exactly when the comparison succeeds; when the comparison raises, the
error propagates with the `TempOutputs` folder (holding the exported
outputs) left behind. -/
theorem run_compare_case_cleanup_on_success (expected : Folder)
    (output_set : OutputSetM) (prior : Option Folder) :
    ((run_compare_case expected output_set prior).result = Except.ok () ↔
      (run_compare_case expected output_set prior).tempOutputs = none)
    ∧ ∀ e, (run_compare_case expected output_set prior).result = Except.error e →
        (run_compare_case expected output_set prior).tempOutputs =
          some (export_outputs output_set) := by
  rcases h : compare_outputs expected (export_outputs output_set) with u | e
  · simp [run_compare_case, h]
  · simp [run_compare_case, h]

/-- A path that is not among a folder's paths is not found in it. -/
theorem findFile_eq_none_of_not_mem (extra : Folder) (p : String)
    (hp : p ∉ extra.map Prod.fst) : findFile extra p = none := by
  induction extra with
  | nil => rfl
  | cons e rest ih =>
    obtain ⟨n, c⟩ := e
    simp only [List.map_cons, List.mem_cons, not_or] at hp
    have hne : ¬ n = p := fun hh => hp.1 hh.symm
    simp only [findFile, if_neg hne]
    exact ih hp.2

/-- Appending files at fresh paths does not change a lookup at an old path. -/
theorem findFile_append_of_not_mem (actual extra : Folder) (p : String)
    (hp : p ∉ extra.map Prod.fst) :
    findFile (actual ++ extra) p = findFile actual p := by
  induction actual with
  | nil => simpa using findFile_eq_none_of_not_mem extra p hp
  | cons e rest ih =>
    by_cases he : e.1 = p
    · simp [findFile, he]
    · simp only [List.cons_append, findFile, if_neg he]
      exact ih

/-- C10: The comparison is one-sided: compare_outputs walks only the
expected-outputs tree, so files present in the actual (temporary) outputs
folder with no counterpart at the same relative path under ExpectedOutputs
are never examined — the comparison result is unchanged by adding such
extra files, and in particular a succeeding comparison still succeeds when
the produced outputs contain extra files beyond the expected set. -/
theorem compare_outputs_one_sided (expected actual extra : Folder)
    (h : ∀ p ∈ extra.map Prod.fst, p ∉ expected.map Prod.fst) :
    compare_outputs expected (actual ++ extra) =
      compare_outputs expected actual := by
  induction expected with
  | nil => rfl
  | cons e rest ih =>
    have he : e.1 ∉ extra.map Prod.fst := by
      intro hmem
      exact h e.1 hmem (by simp)
    have hfind := findFile_append_of_not_mem actual extra e.1 he
    have hrest : ∀ p ∈ extra.map Prod.fst, p ∉ rest.map Prod.fst := by
      intro p hp hmem
      exact h p hp (by simp [hmem])
    calc compare_outputs (e :: rest) (actual ++ extra)
        = (do assert_file (findFile (actual ++ extra) e.1) e.1 e.2
              compare_outputs rest (actual ++ extra)) := rfl
      _ = (do assert_file (findFile actual e.1) e.1 e.2
              compare_outputs rest actual) := by rw [hfind, ih hrest]
      _ = compare_outputs (e :: rest) actual := rfl

/-- Witness for C10: one expected html file reproduced in the actual
outputs; an extra actual file at a fresh path leaves the comparison
unchanged. -/
theorem compare_outputs_one_sided_witness :
    compare_outputs [("a.html", FileContent.html)]
        ([("a.html", FileContent.html)] ++ [("b.html", FileContent.html)]) =
      compare_outputs [("a.html", FileContent.html)]
        [("a.html", FileContent.html)] :=
  compare_outputs_one_sided [("a.html", FileContent.html)]
    [("a.html", FileContent.html)] [("b.html", FileContent.html)]
    (by decide)

/-- Looking a key up after a Python dict assignment: the assigned key maps
to the new value, every other key is untouched. -/
theorem dictGet_dictSet (kvs : List (String × Json)) (key : String) (v : Json)
    (k : String) :
    dictGet (dictSet kvs key v) k =
      if k = key then some v else dictGet kvs k := by
  induction kvs with
  | nil =>
    by_cases hk : k = key
    · simp [dictSet, dictGet, hk]
    · simp [dictSet, dictGet, hk, Ne.symm hk]
  | cons e rest ih =>
    obtain ⟨k', v'⟩ := e
    by_cases he : k' = key
    · subst he
      by_cases hk : k = k'
      · subst hk
        simp [dictSet, dictGet]
      · simp [dictSet, dictGet, hk, Ne.symm hk]
    · by_cases hek : k' = k
      · subst hek
        simp [dictSet, dictGet, he]
      · simp [dictSet, dictGet, he, hek, ih]

/-- C3: In create mode, the settings written into the new case's Inputs
folder are verbatim the settings mapping the harness read from the
project's current working input location (load_settings, which forces
create_output_files to false), with any pre-existing folder contents
replaced: the folder afterwards holds exactly settings.json with the
loaded mapping, whatever it held before; key for key, the written mapping
is the read file's mapping with only create_output_files forced. -/
theorem create_mode_settings_verbatim :
    (∀ (raw : List (String × Json)) (priorInputs : Option Folder),
        create_mode_inputs raw priorInputs =
          [("settings.json", FileContent.json (Json.obj (load_settings raw)))])
    ∧ (∀ (raw : List (String × Json)) (k : String),
        dictGet (load_settings raw) k =
          if k = "create_output_files" then some (Json.bool false)
          else dictGet raw k) := by
  constructor
  · intro raw priorInputs
    cases priorInputs <;> rfl
  · intro raw k
    exact dictGet_dictSet raw "create_output_files" (Json.bool false) k

/-- Counterexample to C1 as stated: with existing case numbers {1, 4} the
scan has two gaps, 2 and 3; the loop keeps overwriting its candidate, so
allocation returns 3 — yet 2 is a smaller unused positive case number. -/
theorem new_case_number_not_smallest_gap :
    new_case_number [1, 4] = Except.ok 3
    ∧ (2 : Int) ∉ ([1, 4] : List Int)
    ∧ (0 : Int) < 2 ∧ (2 : Int) < 3 :=
  ⟨rfl, by decide, by decide, by decide⟩

/-- The gap scan over `range(1, 1 + k)`, spelled over `List.range`: either
no integer of the range is unused (the loop never fires), or the scan
returns the largest unused integer of the range. -/
theorem scan_range_spec (ns : List Int) (k : Nat) :
    (((List.range k).map (fun j : Nat => (1 : Int) + (j : Int))).foldl
        (fun acc i => if i ∈ ns then acc else some i) none = none
      ∧ ∀ i : Int, 1 ≤ i → i < 1 + k → i ∈ ns)
    ∨ (∃ g : Int,
        ((List.range k).map (fun j : Nat => (1 : Int) + (j : Int))).foldl
          (fun acc i => if i ∈ ns then acc else some i) none = some g
        ∧ 1 ≤ g ∧ g < 1 + k ∧ g ∉ ns
        ∧ ∀ i : Int, g < i → i < 1 + k → i ∈ ns) := by
  induction k with
  | zero =>
    left
    refine ⟨rfl, ?_⟩
    intro i h1 h2
    omega
  | succ k ih =>
    have hsplit : ((List.range (k + 1)).map (fun j : Nat => (1 : Int) + (j : Int))) =
        ((List.range k).map (fun j : Nat => (1 : Int) + (j : Int))) ++ [(1 : Int) + k] := by
      rw [List.range_succ, List.map_append]
      rfl
    rw [hsplit, List.foldl_append]
    by_cases hmem : ((1 : Int) + k) ∈ ns
    · rcases ih with ⟨hnone, hall⟩ | ⟨g, hsome, h1, h2, h3, hall⟩
      · left
        rw [hnone]
        refine ⟨by simp [hmem], ?_⟩
        intro i hi1 hi2
        by_cases hik : i < 1 + (k : Int)
        · exact hall i hi1 hik
        · have : i = 1 + (k : Int) := by push_cast at hi2 ⊢; omega
          rw [this]
          exact hmem
      · right
        refine ⟨g, ?_, h1, ?_, h3, ?_⟩
        · rw [hsome]; simp [hmem]
        · push_cast
          omega
        · intro i hi1 hi2
          by_cases hik : i < 1 + (k : Int)
          · exact hall i hi1 hik
          · have : i = 1 + (k : Int) := by push_cast at hi2 ⊢; omega
            rw [this]
            exact hmem
    · right
      refine ⟨(1 : Int) + k, by simp [hmem], by omega, by push_cast; omega,
        hmem, ?_⟩
      intro i hi1 hi2
      exfalso
      push_cast at hi2
      omega

/-- C1 (amended): for every non-empty set of existing case numbers with
maximum m, create_new_case_folder's number computation (new_case_number)
returns an unused number: the LARGEST integer in [1, m) not already used,
when a gap exists (the scan has no break, so a later gap overwrites an
earlier one), and m+1 when no gap exists; in particular with {1,2,4} it
still allocates 3 and with {1,2,3} it allocates 4, since a single gap is
both the first and the last. -/
theorem new_case_number_gap_fill (ns : List Int) (m : Int)
    (h : pymax ns = some m) :
    (∃ g : Int, new_case_number ns = Except.ok g
        ∧ 1 ≤ g ∧ g < m ∧ g ∉ ns
        ∧ ∀ i : Int, g < i → i < m → i ∈ ns)
    ∨ ((∀ i : Int, 1 ≤ i → i < m → i ∈ ns)
        ∧ new_case_number ns = Except.ok (m + 1)) := by
  have hunfold : new_case_number ns =
      Except.ok ((scanGaps ns m).getD (m + 1)) := by
    simp [new_case_number, h]
  by_cases hm : 1 ≤ m
  · have hk : (1 : Int) + ((m - 1).toNat : Int) = m := by omega
    rcases scan_range_spec ns (m - 1).toNat with ⟨hnone, hall⟩ |
      ⟨g, hsome, h1, h2, h3, hall⟩
    · right
      constructor
      · intro i hi1 hi2
        exact hall i hi1 (by omega)
      · rw [hunfold]
        have : scanGaps ns m = none := by
          simp only [scanGaps, rangeInts]
          exact hnone
        rw [this]
        rfl
    · left
      refine ⟨g, ?_, h1, by omega, h3, ?_⟩
      · rw [hunfold]
        have : scanGaps ns m = some g := by
          simp only [scanGaps, rangeInts]
          exact hsome
        rw [this]
        rfl
      · intro i hi1 hi2
        exact hall i hi1 (by omega)
  · right
    constructor
    · intro i hi1 hi2
      omega
    · rw [hunfold]
      have : scanGaps ns m = none := by
        simp only [scanGaps, rangeInts]
        have : (m - 1).toNat = 0 := by omega
        rw [this]
        rfl
      rw [this]
      rfl

/-- Witness for C1 (amended): existing case numbers {1, 2, 4}, whose
maximum is 4; the single gap 3 is allocated. -/
theorem new_case_number_gap_fill_witness :
    (∃ g : Int, new_case_number [1, 2, 4] = Except.ok g
        ∧ 1 ≤ g ∧ g < 4 ∧ g ∉ ([1, 2, 4] : List Int)
        ∧ ∀ i : Int, g < i → i < 4 → i ∈ ([1, 2, 4] : List Int))
    ∨ ((∀ i : Int, 1 ≤ i → i < 4 → i ∈ ([1, 2, 4] : List Int))
        ∧ new_case_number [1, 2, 4] = Except.ok (4 + 1)) :=
  new_case_number_gap_fill [1, 2, 4] 4 rfl

/-- Replace the element at an index, when in range. -/
def modifyAt {α : Type} : List α → Nat → (α → α) → List α
  | [], _, _ => []
  | x :: xs, 0, g => g x :: xs
  | x :: xs, n + 1, g => x :: modifyAt xs n g

/-- The cell of a frame at row `i`, column position `j`, if in range. -/
def cellAt (f : Frame) (i j : Nat) : Option Cell :=
  (f.rows.get? i).bind (fun r => r.get? j)

/-- The frame with the cell at row `i`, column position `j` replaced. -/
def setCell (f : Frame) (i j : Nat) (c : Cell) : Frame :=
  ⟨f.columns, modifyAt f.rows i (fun r => modifyAt r j (fun _ => c))⟩

/-- Every cell is within tolerance of itself. -/
theorem cellClose_refl (c : Cell) :
    cellClose ABSOLUTE_TOLERANCE RELATIVE_TOLERANCE c c = true := by
  cases c with
  | num q =>
    simp only [cellClose, decide_eq_true_eq, RELATIVE_TOLERANCE,
      ABSOLUTE_TOLERANCE, sub_self, abs_zero, zero_mul, add_zero]
    norm_num
  | str s => simp [cellClose]

/-- Every row is within tolerance of itself. -/
theorem rowClose_refl (r : List Cell) :
    rowClose ABSOLUTE_TOLERANCE RELATIVE_TOLERANCE r r = true := by
  induction r with
  | nil => rfl
  | cons c cs ih => simp [rowClose, cellClose_refl, ih]

/-- Every block of rows is within tolerance of itself. -/
theorem rowsClose_refl (rows : List (List Cell)) :
    rowsClose ABSOLUTE_TOLERANCE RELATIVE_TOLERANCE rows rows = true := by
  induction rows with
  | nil => rfl
  | cons r rs ih => simp [rowsClose, rowClose_refl, ih]

/-- Perturbing one numeric cell of a row by `δ` keeps the row within
tolerance exactly when `|δ|` is within the absolute tolerance (the
relative tolerance being zero). -/
theorem rowClose_set_num (r : List Cell) (j : Nat) (q δ : ℚ)
    (hq : r.get? j = some (Cell.num q)) :
    (rowClose ABSOLUTE_TOLERANCE RELATIVE_TOLERANCE r
        (modifyAt r j (fun _ => Cell.num (q + δ))) = true)
      ↔ |δ| ≤ ABSOLUTE_TOLERANCE := by
  induction r generalizing j with
  | nil => simp [List.get?] at hq
  | cons c cs ih =>
    cases j with
    | zero =>
      have hc : c = Cell.num q := by
        simpa [List.get?] using hq
      subst hc
      simp only [modifyAt, rowClose, rowsClose_refl, Bool.and_eq_true,
        rowClose_refl, and_true, cellClose, decide_eq_true_eq]
      have habs : q - (q + δ) = -δ := by ring
      rw [habs, abs_neg]
      simp [RELATIVE_TOLERANCE]
    | succ j' =>
      have hq' : cs.get? j' = some (Cell.num q) := by
        simpa [List.get?] using hq
      simp only [modifyAt, rowClose, cellClose_refl, Bool.true_and]
      exact ih j' hq'

/-- Perturbing one numeric cell of a block of rows by `δ` keeps the block
within tolerance exactly when `|δ|` is within the absolute tolerance. -/
theorem rowsClose_set_num (rows : List (List Cell)) (i j : Nat) (q δ : ℚ)
    (hq : (rows.get? i).bind (fun r => r.get? j) = some (Cell.num q)) :
    (rowsClose ABSOLUTE_TOLERANCE RELATIVE_TOLERANCE rows
        (modifyAt rows i (fun r => modifyAt r j (fun _ => Cell.num (q + δ)))) =
      true) ↔ |δ| ≤ ABSOLUTE_TOLERANCE := by
  induction rows generalizing i with
  | nil => simp [List.get?] at hq
  | cons r rs ih =>
    cases i with
    | zero =>
      have hr : r.get? j = some (Cell.num q) := by
        simpa [List.get?] using hq
      simp only [modifyAt, rowsClose, rowsClose_refl, Bool.and_eq_true, and_true]
      exact rowClose_set_num r j q δ hr
    | succ i' =>
      have hq' : (rs.get? i').bind (fun r => r.get? j) = some (Cell.num q) := by
        simpa [List.get?] using hq
      simp only [modifyAt, rowsClose, rowClose_refl, Bool.true_and]
      exact ih i' hq'

/-- `assert_frame_equal` under the module tolerances succeeds exactly when
the column headers agree and all rows are within tolerance. -/
theorem assert_frame_equal_ok_iff (a b : Frame) :
    assert_frame_equal ABSOLUTE_TOLERANCE RELATIVE_TOLERANCE a b =
        Except.ok () ↔
      a.columns = b.columns ∧
        rowsClose ABSOLUTE_TOLERANCE RELATIVE_TOLERANCE a.rows b.rows = true := by
  by_cases hc : a.columns = b.columns
  · by_cases hr :
      rowsClose ABSOLUTE_TOLERANCE RELATIVE_TOLERANCE a.rows b.rows = true
    · simp [assert_frame_equal, hc, hr]
    · simp [assert_frame_equal, hc, hr]
  · simp [assert_frame_equal, hc]

/-- C5: assert_csv compares numeric cells under an absolute tolerance of
1e-8 and a relative tolerance of 0: perturbing any one numeric cell of any
frame by δ, whatever the cell's magnitude, the comparison succeeds exactly
when |δ| ≤ 1e-8 — so two files differing only by 1e-9 in one cell compare
equal, while a difference of 1e-7 fails. -/
theorem assert_csv_absolute_tolerance (f : Frame) (i j : Nat) (q δ : ℚ)
    (hq : cellAt f i j = some (Cell.num q)) :
    (assert_csv (some (FileContent.csv f))
        (some (FileContent.csv (setCell f i j (Cell.num (q + δ))))) =
      Except.ok ()) ↔ |δ| ≤ ABSOLUTE_TOLERANCE := by
  have hcsv : assert_csv (some (FileContent.csv f))
      (some (FileContent.csv (setCell f i j (Cell.num (q + δ))))) =
      assert_frame_equal ABSOLUTE_TOLERANCE RELATIVE_TOLERANCE f
        (setCell f i j (Cell.num (q + δ))) := rfl
  rw [hcsv, assert_frame_equal_ok_iff]
  have hcols : f.columns = (setCell f i j (Cell.num (q + δ))).columns := rfl
  rw [← hcols]
  simp only [true_and, eq_self_iff_true]
  exact rowsClose_set_num f.rows i j q δ hq

/-- Witness for C5: a one-cell frame of magnitude one million, perturbed by
1e-9 — within the absolute tolerance, the comparison succeeds. -/
theorem assert_csv_absolute_tolerance_witness :
    assert_csv (some (FileContent.csv ⟨["total"], [[Cell.num 1000000]]⟩))
        (some (FileContent.csv
          (setCell ⟨["total"], [[Cell.num 1000000]]⟩ 0 0
            (Cell.num (1000000 + 1 / 1000000000))))) =
      Except.ok () :=
  (assert_csv_absolute_tolerance ⟨["total"], [[Cell.num 1000000]]⟩ 0 0
      1000000 (1 / 1000000000) rfl).mpr
    (by rw [abs_le]; constructor <;> norm_num [ABSOLUTE_TOLERANCE])

/-- A name among an archive's member names is found by lookup. -/
theorem npzGet_of_mem (data : List (String × List ℚ)) (name : String)
    (h : name ∈ data.map Prod.fst) : ∃ arr, npzGet data name = some arr := by
  induction data with
  | nil => simp at h
  | cons p rest ih =>
    obtain ⟨pn, parr⟩ := p
    by_cases hn : pn = name
    · exact ⟨parr, by simp [npzGet, hn]⟩
    · have h' : name ∈ rest.map Prod.fst := by
        simp only [List.map_cons, List.mem_cons] at h
        rcases h with h1 | h1
        · exact absurd h1.symm hn
        · exact h1
      obtain ⟨arr, harr⟩ := ih h'
      exact ⟨arr, by simp [npzGet, hn, harr]⟩

/-- When every expected member can be looked up in the actual archive, the
member loop either succeeds or fails with an equality-assertion error —
never with a key error. -/
theorem assertNpzMembers_kinds (data : List (String × List ℚ))
    (l : List (String × List ℚ))
    (h : ∀ pair ∈ l, ∃ arr, npzGet data pair.1 = some arr) :
    assertNpzMembers data l = Except.ok ()
    ∨ ∃ msg, assertNpzMembers data l =
        Except.error (CmpError.assertionError msg) := by
  induction l with
  | nil => left; rfl
  | cons p rest ih =>
    obtain ⟨pn, parr⟩ := p
    obtain ⟨a, ha⟩ := h (pn, parr) (by simp)
    by_cases hc : allcloseB ABSOLUTE_TOLERANCE RELATIVE_TOLERANCE a parr = true
    · have hall : assert_allclose ABSOLUTE_TOLERANCE RELATIVE_TOLERANCE a parr =
          Except.ok () := by simp [assert_allclose, hc]
      have hstep : assertNpzMembers data ((pn, parr) :: rest) =
          assertNpzMembers data rest := by
        simp [assertNpzMembers, ha, hall]
      rw [hstep]
      exact ih (fun pair hp => h pair (by simp [hp]))
    · have hall : assert_allclose ABSOLUTE_TOLERANCE RELATIVE_TOLERANCE a parr =
          Except.error (CmpError.assertionError "Not equal to tolerance") := by
        simp [assert_allclose, hc]
      right
      refine ⟨"Not equal to tolerance", ?_⟩
      simp [assertNpzMembers, ha, hall]

/-- When the member loop succeeds, every expected member that the actual
archive holds is element-wise within tolerance. -/
theorem assertNpzMembers_ok_all (data : List (String × List ℚ))
    (l : List (String × List ℚ))
    (hok : assertNpzMembers data l = Except.ok ()) :
    ∀ name arrE arrA, (name, arrE) ∈ l → npzGet data name = some arrA →
      allcloseB ABSOLUTE_TOLERANCE RELATIVE_TOLERANCE arrA arrE = true := by
  induction l with
  | nil => intro name arrE arrA hmem; simp at hmem
  | cons p rest ih =>
    obtain ⟨pn, parr⟩ := p
    cases hga : npzGet data pn with
    | none => simp [assertNpzMembers, hga] at hok
    | some actual =>
      by_cases hc :
        allcloseB ABSOLUTE_TOLERANCE RELATIVE_TOLERANCE actual parr = true
      · have hall : assert_allclose ABSOLUTE_TOLERANCE RELATIVE_TOLERANCE
            actual parr = Except.ok () := by simp [assert_allclose, hc]
        simp only [assertNpzMembers, hga, hall] at hok
        intro name arrE arrA hmem hget
        rcases List.mem_cons.mp hmem with h1 | h1
        · have hname : name = pn := congrArg Prod.fst h1
          have harr : arrE = parr := congrArg Prod.snd h1
          subst hname; subst harr
          rw [hget] at hga
          injection hga with hga'
          rw [← hga'] at hc
          exact hc
        · exact ih hok name arrE arrA h1 hget
      · have hall : assert_allclose ABSOLUTE_TOLERANCE RELATIVE_TOLERANCE
            actual parr =
            Except.error (CmpError.assertionError "Not equal to tolerance") := by
          simp [assert_allclose, hc]
        simp [assertNpzMembers, hga, hall] at hok

/-- C6: assert_npz raises a key-mismatch KeyError whenever the unordered
sets of archive member names differ, before any element-wise comparison is
attempted (whatever the array values are); when the key sets match, the
only possible failure is an equality-assertion (value-mismatch) error — a
kind distinct from KeyError — and a member differing beyond the 1e-8
absolute tolerance does make it fail with that value-mismatch error. -/
theorem assert_npz_error_kinds (output expected : List (String × List ℚ)) :
    (keySetEqb (output.map Prod.fst) (expected.map Prod.fst) = false →
      assert_npz (some (FileContent.npz output))
          (some (FileContent.npz expected)) =
        Except.error (CmpError.keyError "The .npz archives have different keys."))
    ∧ (keySetEqb (output.map Prod.fst) (expected.map Prod.fst) = true →
        assert_npz (some (FileContent.npz output))
            (some (FileContent.npz expected)) = Except.ok ()
        ∨ ∃ msg, assert_npz (some (FileContent.npz output))
            (some (FileContent.npz expected)) =
            Except.error (CmpError.assertionError msg))
    ∧ (keySetEqb (output.map Prod.fst) (expected.map Prod.fst) = true →
        ∀ name arrE arrA, (name, arrE) ∈ expected →
          npzGet output name = some arrA →
          allcloseB ABSOLUTE_TOLERANCE RELATIVE_TOLERANCE arrA arrE = false →
          ∃ msg, assert_npz (some (FileContent.npz output))
              (some (FileContent.npz expected)) =
              Except.error (CmpError.assertionError msg)) := by
  have hunfold : assert_npz (some (FileContent.npz output))
      (some (FileContent.npz expected)) =
      if keySetEqb (output.map Prod.fst) (expected.map Prod.fst) then
        assertNpzMembers output expected
      else
        Except.error
          (CmpError.keyError "The .npz archives have different keys.") := rfl
  have hmembers : keySetEqb (output.map Prod.fst) (expected.map Prod.fst) =
        true →
      ∀ pair ∈ expected, ∃ arr, npzGet output pair.1 = some arr := by
    intro hk pair hp
    have hsub : ∀ k ∈ expected.map Prod.fst,
        (output.map Prod.fst).contains k = true := by
      have := (Bool.and_eq_true _ _).mp hk
      exact fun k hkm => (List.all_eq_true.mp this.2) k hkm
    have hmem : pair.1 ∈ output.map Prod.fst := by
      have := hsub pair.1 (List.mem_map.mpr ⟨pair, hp, rfl⟩)
      exact List.elem_iff.mp this
    exact npzGet_of_mem output pair.1 hmem
  refine ⟨?_, ?_, ?_⟩
  · intro hk
    rw [hunfold, if_neg (by simp [hk])]
  · intro hk
    rw [hunfold, if_pos hk]
    exact assertNpzMembers_kinds output expected (hmembers hk)
  · intro hk name arrE arrA hmem hget hfar
    rw [hunfold, if_pos hk]
    rcases assertNpzMembers_kinds output expected (hmembers hk) with hok | herr
    · have := assertNpzMembers_ok_all output expected hok name arrE arrA hmem hget
      rw [this] at hfar
      cases hfar
    · exact herr

/-- C8: For every settings mapping with numeric values for keys "a" and
"b" (and a "create_output_files" entry, which the harness always sets),
main returns an output set whose single tabular item has one column named
"total" and one row whose cell equals a - b exactly; for settings
{"a": 10, "b": 3} the total is 7, and the exported csv has header "total"
and the single data row "0,7" (index, value). -/
theorem main_total_spec :
    (∀ (settings : List (String × Json)) (a b : ℚ) (c : Json),
        dictGet settings "a" = some (Json.num a) →
        dictGet settings "b" = some (Json.num b) →
        dictGet settings "create_output_files" = some c →
        main settings =
          some ⟨[⟨"df", "csv",
            FileContent.csv ⟨["total"], [[Cell.num (a - b)]]⟩⟩]⟩)
    ∧ main [("a", Json.num 10), ("b", Json.num 3),
          ("create_output_files", Json.bool false)] =
        some ⟨[⟨"df", "csv", FileContent.csv ⟨["total"], [[Cell.num 7]]⟩⟩]⟩
    ∧ exportCsvLines
        ⟨"df", "csv", FileContent.csv ⟨["total"], [[Cell.num 7]]⟩⟩ =
        ["total", "0,7"] := by
  refine ⟨?_, ?_, ?_⟩
  · intro settings a b c ha hb hc
    simp [main, ha, hb, hc]
  · have h10 : (10 : ℚ) - 3 = 7 := by norm_num
    simp [main, dictGet, h10]
  · have h7den : (7 : ℚ).den = 1 := rfl
    simp only [exportCsvLines, csvDataLines, joinComma, renderCell, h7den,
      if_pos]
    rfl

end Snapshots
